import Mathlib

/-!
Verification development for the clapdb/Arena region allocator.

The supplied sources contain the compile-time trait header (ArenaHelper,
is_pmr_trivial_container, the Constructable / NonConstructable /
DestructorSkippable concepts), the metrics translation unit, the README and
the benchmark driver.  The arena core itself (arena.hpp: blocks, aligned bump
allocation, cleanup registry, reset, the memory-resource adapter and
align.hpp) is declared and exercised by those files but its implementation is
not among the supplied sources; the definitions below that embed it are
modelled from the specification and say so in their doc comments.
-/

namespace arena

/-- Shallow embedding of a C++ type as the bundle of compile-time facts the
trait header inspects: presence of the two arena tag member types
(ArenaManaged_, written by the ArenaFullManagedTag macro, and
ArenaManagedSkipDestruct_, written by the ArenaManagedCreateOnlyTag macro),
trivial destructibility, the C-like-layout predicate (is_trivial together
with is_standard_layout), whether the type is an untyped byte buffer, and the
nested-type facts probed by is_pmr_trivial_container: whether allocator_type
and value_type both exist, whether allocator_type is
std::pmr::polymorphic_allocator of value_type, and whether value_type is
trivially destructible. -/
structure CppType where
  hasArenaManagedTag : Bool
  hasSkipDestructTag : Bool
  triviallyDestructible : Bool
  triviallyConstructibleCopyable : Bool
  isByteBuffer : Bool
  hasAllocatorAndValueType : Bool
  allocatorIsPmrPolyOfValue : Bool
  valueTriviallyDestructible : Bool
deriving DecidableEq, Repr

/-- From the source (is_pmr_trivial_container): the partial specialization
matches exactly when T::allocator_type and T::value_type exist,
allocator_type is std::pmr::polymorphic_allocator of value_type, and
value_type is trivially destructible. -/
def is_pmr_trivial_container (T : CppType) : Bool :=
  T.hasAllocatorAndValueType && T.allocatorIsPmrPolyOfValue &&
    T.valueTriviallyDestructible

/-- From the source (ArenaHelper::DestructionSkippable overload pair): the
char overload is selected exactly when T has the member type
ArenaManagedSkipDestruct_. -/
def destructionSkippableProbe (T : CppType) : Bool :=
  T.hasSkipDestructTag

/-- From the source (ArenaHelper::is_destructor_skippable): skip tag present,
or trivially destructible, or a PMR container with trivially destructible
elements. -/
def ArenaHelper.is_destructor_skippable (T : CppType) : Bool :=
  destructionSkippableProbe T || T.triviallyDestructible ||
    is_pmr_trivial_container T

/-- From the source (ArenaHelper::ArenaConstructable overload pair and
ArenaHelper::is_arena_constructable): true exactly when T has the member type
ArenaManaged_. -/
def ArenaHelper.is_arena_constructable (T : CppType) : Bool :=
  T.hasArenaManagedTag

/-- From the source: is_arena_full_managable inherits
ArenaHelper::is_arena_constructable. -/
def is_arena_full_managable (T : CppType) : Bool :=
  ArenaHelper.is_arena_constructable T

/-- From the source: is_destructor_skippable inherits
ArenaHelper::is_destructor_skippable. -/
def is_destructor_skippable (T : CppType) : Bool :=
  ArenaHelper.is_destructor_skippable T

/-- From the source (concept Constructable). -/
def Constructable (T : CppType) : Bool :=
  is_arena_full_managable T || is_destructor_skippable T

/-- From the source (concept NonConstructable). -/
def NonConstructable (T : CppType) : Bool :=
  !is_arena_full_managable T

/-- From the source (concept DestructorSkippable). -/
def DestructorSkippable (T : CppType) : Bool :=
  is_destructor_skippable T

/-- Modelled from the spec: align.hpp is not among the supplied sources.
align_up n a is the smallest multiple of a that is at least n (spec section
4.1), computed by rounding (n + a - 1) down to a multiple of a. -/
def align_up (n a : ℕ) : ℕ :=
  ((n + a - 1) / a) * a

/-- Modelled from the spec: align.hpp is not among the supplied sources.
Power-of-two test via the usual bit trick a != 0 and (a and (a-1)) == 0. -/
def is_power_of_two (a : ℕ) : Bool :=
  a != 0 && (a &&& (a - 1)) == 0

theorem align_up_mod (n a : ℕ) : align_up n a % a = 0 := by
  simp [align_up, Nat.mul_mod_left]

theorem le_align_up (n a : ℕ) (ha : 0 < a) : n ≤ align_up n a := by
  unfold align_up
  have hkey := Nat.div_add_mod (n + a - 1) a
  have hmod : (n + a - 1) % a < a := Nat.mod_lt _ ha
  have hcomm : (n + a - 1) / a * a = a * ((n + a - 1) / a) :=
    Nat.mul_comm _ _
  omega

theorem align_up_le_of_le (n a m : ℕ) (ha : 0 < a) (hm : m % a = 0)
    (hnm : n ≤ m) : align_up n a ≤ m := by
  unfold align_up
  obtain ⟨k, hk⟩ : a ∣ m := Nat.dvd_of_mod_eq_zero hm
  subst hk
  have hdiv : (n + a - 1) / a ≤ k := by
    rw [Nat.div_le_iff_le_mul_add_pred ha]
    omega
  calc (n + a - 1) / a * a ≤ k * a := Nat.mul_le_mul_right a hdiv
    _ = a * k := Nat.mul_comm k a

theorem is_power_of_two_pos (a : ℕ) (h : is_power_of_two a = true) : 0 < a := by
  unfold is_power_of_two at h
  simp only [Bool.and_eq_true, bne_iff_ne, ne_eq, beq_iff_eq] at h
  exact Nat.pos_of_ne_zero h.1

/-- Modelled from the spec: size of the block header placed at the low end of
each block, already rounded up to the maximum natural alignment (spec section
4.2); a fixed positive constant. -/
def kHeaderSize : ℕ := 16

/-- Modelled from the spec: size of one cleanup record, a pair of an object
pointer and a destructor thunk (spec section 3). -/
def kRecordSize : ℕ := 16

/-- Modelled from the spec: a cleanup record pairs the opaque address of an
object with a destructor thunk; thunks are identified by a number here. -/
structure CleanupRecord where
  ptr : ℕ
  thunk : ℕ
deriving DecidableEq, Repr

/-- Modelled from the spec: a block is a contiguous region starting at
address base with size bytes; pos is the next allocation offset growing
upward, limit the offset at which the cleanup area begins, and records the
cleanup records stored in the area, newest first (spec sections 3 and 4.2).
-/
structure Block where
  base : ℕ
  size : ℕ
  pos : ℕ
  limit : ℕ
  records : List CleanupRecord
deriving DecidableEq, Repr

/-- Modelled from the spec: a freshly constructed block over a raw buffer of
the given size: header at offset 0, pos at the rounded header size, limit at
size, no cleanup records (spec section 4.2). -/
def Block.fresh (base size : ℕ) : Block :=
  { base := base, size := size, pos := kHeaderSize, limit := size,
    records := [] }

/-- Modelled from the spec: whether an aligned bump allocation of n bytes at
alignment a fits into the block (spec section 4.2). -/
def Block.fits (b : Block) (n a : ℕ) : Bool :=
  align_up (b.base + b.pos) a + n ≤ b.base + b.limit

/-- Modelled from the spec: aligned bump allocation inside one block: the
returned address is the position pointer rounded up to the alignment, and
pos advances past the n allocated bytes (spec section 4.2). -/
def Block.bump (b : Block) (n a : ℕ) : ℕ × Block :=
  let start := align_up (b.base + b.pos) a
  (start, { b with pos := start + n - b.base })

/-- Modelled from the spec: cleanup registration inside one block: checks
that one record still fits between pos and limit, then writes the record at
the bottom of the cleanup area and lowers limit (spec section 4.2). -/
def Block.addRecord (b : Block) (r : CleanupRecord) : Option Block :=
  if b.pos + kRecordSize ≤ b.limit then
    some { b with limit := b.limit - kRecordSize, records := r :: b.records }
  else none

/-- Modelled from the spec: the atomic reserve-object-and-cleanup-record
operation inside one block: both the n object bytes and the record must fit,
the object is placed at the aligned position, pos advances and limit drops
in one step (spec section 4.3, allocate_aligned_and_add_cleanup). -/
def Block.bumpWithRecord (b : Block) (n a thunk : ℕ) : Option (ℕ × Block) :=
  let start := align_up (b.base + b.pos) a
  if start + n + kRecordSize ≤ b.base + b.limit then
    some (start, { b with pos := start + n - b.base,
                          limit := b.limit - kRecordSize,
                          records := ⟨start, thunk⟩ :: b.records })
  else none

/-- Modelled from the spec: the page source (system allocator) providing raw
buffers; given a requested size it returns the base address of a fresh
buffer, or none on irrecoverable failure (spec sections 1 and 4.3). -/
def PageSource : Type := ℕ → Option ℕ

/-- Modelled from the spec: arena state: the chain of blocks with the most
recently allocated block first, the two size options, and the per-arena
counters reset_count and cleanup_count (spec section 3). -/
structure Arena where
  blocks : List Block
  normal_block_size : ℕ
  huge_block_size : ℕ
  reset_count : ℕ
  cleanup_count : ℕ
deriving DecidableEq, Repr

/-- Modelled from the spec: the growth policy for the next block size: double
the last block size bounded above by huge_block_size (normal_block_size when
there is no block yet), and never below the bytes the pending request needs;
an oversized request gets a dedicated block via the lower bound (spec
section 4.3). -/
def Arena.growSize (ar : Arena) (need : ℕ) : ℕ :=
  let desired := match ar.blocks with
    | [] => ar.normal_block_size
    | b :: _ => min (2 * b.size) ar.huge_block_size
  max desired need

/-- Modelled from the spec: grow-and-retry path of allocate_aligned: request
a fresh block from the page source, bump-allocate from it and link it at
head; on page-source failure the operation fails and the arena is left
unchanged (spec section 4.3). -/
def Arena.growAlloc (ar : Arena) (ps : PageSource) (n a : ℕ) :
    Option ℕ × Arena :=
  let size := ar.growSize (kHeaderSize + n + a)
  match ps size with
  | none => (none, ar)
  | some base =>
    let b := Block.fresh base size
    if b.fits n a then
      let pb := b.bump n a
      (some pb.1, { ar with blocks := pb.2 :: ar.blocks })
    else (none, ar)

/-- Modelled from the spec: allocate_aligned(n, a): a zero-byte request
returns a stable aligned address inside the current block without advancing
pos; otherwise bump-allocate from the head block, growing when the head
cannot satisfy the request (spec sections 4.2 and 4.3). -/
def Arena.allocate_aligned (ar : Arena) (ps : PageSource) (n a : ℕ) :
    Option ℕ × Arena :=
  match ar.blocks with
  | b :: rest =>
    if n = 0 then (some (align_up (b.base + b.pos) a), ar)
    else if b.fits n a then
      let pb := b.bump n a
      (some pb.1, { ar with blocks := pb.2 :: rest })
    else ar.growAlloc ps n a
  | [] => ar.growAlloc ps n a

/-- Modelled from the spec: cleanup-only spill: request a fresh block sized
for at least a header and one record, register the record there and link the
block at head; on page-source failure the arena is unchanged (spec section
4.3). -/
def Arena.growRegister (ar : Arena) (ps : PageSource) (r : CleanupRecord) :
    Bool × Arena :=
  let size := ar.growSize (kHeaderSize + kRecordSize)
  match ps size with
  | none => (false, ar)
  | some base =>
    match (Block.fresh base size).addRecord r with
    | some b => (true, { ar with blocks := b :: ar.blocks })
    | none => (false, ar)

/-- Modelled from the spec: register_cleanup(p, thunk): a null pointer is a
no-op; otherwise the record goes into the current block, spilling to a fresh
cleanup-only block when it does not fit (spec section 4.3). -/
def Arena.register_cleanup (ar : Arena) (ps : PageSource) (r : CleanupRecord) :
    Bool × Arena :=
  if r.ptr = 0 then (true, ar)
  else
    match ar.blocks with
    | b :: rest =>
      match b.addRecord r with
      | some b2 => (true, { ar with blocks := b2 :: rest })
      | none => ar.growRegister ps r
    | [] => ar.growRegister ps r

/-- Modelled from the spec: the atomic
allocate_aligned_and_add_cleanup path: reserve the object bytes and the
cleanup record in the same block; when the head block cannot hold both, grow
and reserve both in the fresh block (spec section 4.3). -/
def Arena.allocWithCleanup (ar : Arena) (ps : PageSource) (n a thunk : ℕ) :
    Option ℕ × Arena :=
  let grow : Option ℕ × Arena :=
    let size := ar.growSize (kHeaderSize + n + a + kRecordSize)
    match ps size with
    | none => (none, ar)
    | some base =>
      match (Block.fresh base size).bumpWithRecord n a thunk with
      | some pb => (some pb.1, { ar with blocks := pb.2 :: ar.blocks })
      | none => (none, ar)
  match ar.blocks with
  | b :: rest =>
    match b.bumpWithRecord n a thunk with
    | some pb => (some pb.1, { ar with blocks := pb.2 :: rest })
    | none => grow
  | [] => grow

/-- Modelled from the spec: the typed construction facade create of T: the
constructability gate is the Constructable concept from the source header;
a destructor-skippable T takes the plain allocation path, any other T takes
the atomic allocate-and-register path with a thunk invoking the destructor
of T on the object pointer (spec section 4.4). -/
def Arena.create (ar : Arena) (ps : PageSource) (T : CppType)
    (n a dtor : ℕ) : Option ℕ × Arena :=
  if Constructable T then
    if is_destructor_skippable T then ar.allocate_aligned ps n a
    else ar.allocWithCleanup ps n a dtor
  else (none, ar)

/-- The cleanup records of a block chain in the order destruction fires
them: blocks from head backward, each block newest record first (spec
section 4.5). -/
def firedList : List Block → List CleanupRecord
  | [] => []
  | b :: rest => b.records ++ firedList rest

/-- All cleanup records currently registered in the arena, in the order a
teardown would fire them. -/
def Arena.blocksRecords (ar : Arena) : List CleanupRecord :=
  firedList ar.blocks

/-- Modelled from the spec: reset(): fire every cleanup record (head block
first, newest record first), release every block, bump reset_count and
cleanup_count, leave the arena usable; the returned list records the thunk
invocations in order (spec section 4.3; the release-all variant of the
block-retention policy, spec section 9). -/
def Arena.reset (ar : Arena) : List CleanupRecord × Arena :=
  let fired := firedList ar.blocks
  (fired, { ar with blocks := [],
                    reset_count := ar.reset_count + 1,
                    cleanup_count := ar.cleanup_count + fired.length })

/-- Modelled from the spec: space_used() sums the bytes handed out across
the owned blocks (spec section 4.3). -/
def Arena.space_used (ar : Arena) : ℕ :=
  (ar.blocks.map (fun b => b.pos - kHeaderSize)).sum

/-- Modelled from the spec: the allocation-resource adapter forwards
deallocate(p, n, a) as a no-op; the arena state is returned untouched (spec
section 4.6). -/
def Arena.deallocate (ar : Arena) (p n a : ℕ) : Arena :=
  ar

/-- Registers a list of cleanup records in order, stopping at the first
failure (used to state the cleanup-order law). -/
def Arena.registerMany (ar : Arena) (ps : PageSource) :
    List CleanupRecord → Bool × Arena
  | [] => (true, ar)
  | r :: rs =>
    match ar.register_cleanup ps r with
    | (true, ar2) => ar2.registerMany ps rs
    | (false, _) => (false, ar)

theorem Block.fresh_records (base size : ℕ) :
    (Block.fresh base size).records = [] := rfl

theorem Block.bump_records (b : Block) (n a : ℕ) :
    (b.bump n a).2.records = b.records := rfl

theorem firedList_cons (b : Block) (rest : List Block) :
    firedList (b :: rest) = b.records ++ firedList rest := rfl

theorem Arena.blocksRecords_growAlloc (ar : Arena) (ps : PageSource)
    (n a : ℕ) : ((ar.growAlloc ps n a).2).blocksRecords = ar.blocksRecords := by
  simp only [Arena.growAlloc]
  split
  · rfl
  · split
    · simp [Arena.blocksRecords, firedList_cons, Block.bump_records,
        Block.fresh_records]
    · rfl

theorem Arena.blocksRecords_allocate_aligned (ar : Arena) (ps : PageSource)
    (n a : ℕ) :
    ((ar.allocate_aligned ps n a).2).blocksRecords = ar.blocksRecords := by
  simp only [Arena.allocate_aligned]
  split
  next b rest heq =>
    split
    next => rfl
    next =>
      split
      next =>
        simp [Arena.blocksRecords, heq, firedList_cons, Block.bump_records]
      next => exact ar.blocksRecords_growAlloc ps n a
  next heq => exact ar.blocksRecords_growAlloc ps n a

theorem Block.bumpWithRecord_some (b : Block) (n a t p : ℕ) (b2 : Block)
    (h : b.bumpWithRecord n a t = some (p, b2)) :
    b2.records = CleanupRecord.mk p t :: b.records := by
  simp only [Block.bumpWithRecord] at h
  split at h
  · simp only [Option.some.injEq, Prod.mk.injEq] at h
    obtain ⟨hp, hb2⟩ := h
    subst hb2
    simp [← hp]
  · simp at h

theorem Arena.allocWithCleanup_some (ar : Arena) (ps : PageSource)
    (n a t p : ℕ) (ar2 : Arena)
    (h : ar.allocWithCleanup ps n a t = (some p, ar2)) :
    ar2.blocksRecords = CleanupRecord.mk p t :: ar.blocksRecords := by
  simp only [Arena.allocWithCleanup] at h
  split at h
  next b rest heq =>
    split at h
    next pb hbr =>
      obtain ⟨q, b2⟩ := pb
      simp only [Prod.mk.injEq, Option.some.injEq] at h
      obtain ⟨hq, har⟩ := h
      subst hq har
      have hrec := Block.bumpWithRecord_some b n a t q b2 hbr
      simp [Arena.blocksRecords, firedList_cons, hrec, heq]
    next hbr =>
      split at h
      next => simp at h
      next base hps =>
        split at h
        next pb hbr2 =>
          obtain ⟨q, b2⟩ := pb
          simp only [Prod.mk.injEq, Option.some.injEq] at h
          obtain ⟨hq, har⟩ := h
          subst hq har
          have hrec := Block.bumpWithRecord_some _ n a t q b2 hbr2
          simp [Arena.blocksRecords, firedList_cons, hrec,
            Block.fresh_records]
        next => simp at h
  next heq =>
    split at h
    next => simp at h
    next base hps =>
      split at h
      next pb hbr2 =>
        obtain ⟨q, b2⟩ := pb
        simp only [Prod.mk.injEq, Option.some.injEq] at h
        obtain ⟨hq, har⟩ := h
        subst hq har
        have hrec := Block.bumpWithRecord_some _ n a t q b2 hbr2
        simp [Arena.blocksRecords, firedList_cons, hrec,
          Block.fresh_records]
      next => simp at h

theorem Arena.growAlloc_none (ar : Arena) (ps : PageSource) (n a : ℕ)
    (ar2 : Arena) (h : ar.growAlloc ps n a = (none, ar2)) : ar2 = ar := by
  simp only [Arena.growAlloc] at h
  split at h
  · simp only [Prod.mk.injEq] at h
    exact h.2.symm
  · split at h
    · simp at h
    · simp only [Prod.mk.injEq] at h
      exact h.2.symm

theorem Arena.allocate_aligned_none (ar : Arena) (ps : PageSource) (n a : ℕ)
    (ar2 : Arena) (h : ar.allocate_aligned ps n a = (none, ar2)) :
    ar2 = ar := by
  simp only [Arena.allocate_aligned] at h
  split at h
  next b rest heq =>
    split at h
    · simp at h
    · split at h
      · simp at h
      · exact ar.growAlloc_none ps n a ar2 h
  next heq => exact ar.growAlloc_none ps n a ar2 h

theorem Arena.allocWithCleanup_none (ar : Arena) (ps : PageSource)
    (n a t : ℕ) (ar2 : Arena)
    (h : ar.allocWithCleanup ps n a t = (none, ar2)) : ar2 = ar := by
  simp only [Arena.allocWithCleanup] at h
  split at h
  next b rest heq =>
    split at h
    next pb hbr => simp at h
    next hbr =>
      split at h
      · simp only [Prod.mk.injEq] at h
        exact h.2.symm
      next base hps =>
        split at h
        next pb hbr2 => simp at h
        next =>
          simp only [Prod.mk.injEq] at h
          exact h.2.symm
  next heq =>
    split at h
    · simp only [Prod.mk.injEq] at h
      exact h.2.symm
    next base hps =>
      split at h
      next pb hbr2 => simp at h
      next =>
        simp only [Prod.mk.injEq] at h
        exact h.2.symm

theorem Arena.create_none (ar : Arena) (ps : PageSource) (T : CppType)
    (n a d : ℕ) (ar2 : Arena)
    (h : ar.create ps T n a d = (none, ar2)) : ar2 = ar := by
  simp only [Arena.create] at h
  split at h
  · split at h
    · exact ar.allocate_aligned_none ps n a ar2 h
    · exact ar.allocWithCleanup_none ps n a d ar2 h
  · simp only [Prod.mk.injEq] at h
    exact h.2.symm

theorem Block.addRecord_some (b : Block) (r : CleanupRecord) (b2 : Block)
    (h : b.addRecord r = some b2) : b2.records = r :: b.records := by
  simp only [Block.addRecord] at h
  split at h
  · simp only [Option.some.injEq] at h
    subst h
    rfl
  · simp at h

theorem Block.addRecord_fresh (base size : ℕ) (r : CleanupRecord)
    (hsz : kHeaderSize + kRecordSize ≤ size) :
    (Block.fresh base size).addRecord r =
      some { base := base, size := size, pos := kHeaderSize,
             limit := size - kRecordSize, records := [r] } := by
  simp [Block.addRecord, Block.fresh, hsz]

theorem Arena.growSize_ge (ar : Arena) (need : ℕ) :
    need ≤ ar.growSize need := by
  simp only [Arena.growSize]
  exact Nat.le_max_right _ _

theorem Arena.growRegister_total (ar : Arena) (ps : PageSource)
    (r : CleanupRecord) (hps : ∀ s, (ps s).isSome = true) :
    (ar.growRegister ps r).1 = true ∧
    ((ar.growRegister ps r).2).blocksRecords = r :: ar.blocksRecords := by
  obtain ⟨base, hp⟩ := Option.isSome_iff_exists.mp
    (hps (ar.growSize (kHeaderSize + kRecordSize)))
  have hsz := ar.growSize_ge (kHeaderSize + kRecordSize)
  simp only [Arena.growRegister, hp, Block.addRecord_fresh _ _ r hsz]
  exact ⟨trivial, by simp [Arena.blocksRecords, firedList_cons]⟩

theorem Arena.register_cleanup_total (ar : Arena) (ps : PageSource)
    (r : CleanupRecord) (hps : ∀ s, (ps s).isSome = true) (hr : r.ptr ≠ 0) :
    (ar.register_cleanup ps r).1 = true ∧
    ((ar.register_cleanup ps r).2).blocksRecords = r :: ar.blocksRecords := by
  simp only [Arena.register_cleanup]
  rw [if_neg hr]
  rcases hb : ar.blocks with _ | ⟨b, rest⟩
  · simp only [hb]
    exact ar.growRegister_total ps r hps
  · simp only [hb]
    rcases ha : b.addRecord r with _ | b2
    · simp only [ha]
      exact ar.growRegister_total ps r hps
    · simp only [ha]
      refine ⟨trivial, ?_⟩
      have hrec := Block.addRecord_some b r b2 ha
      simp [Arena.blocksRecords, hb, firedList_cons, hrec]

theorem Arena.registerMany_total (ps : PageSource)
    (hps : ∀ s, (ps s).isSome = true) :
    ∀ (rs : List CleanupRecord) (ar : Arena), (∀ r ∈ rs, r.ptr ≠ 0) →
      (ar.registerMany ps rs).1 = true ∧
      ((ar.registerMany ps rs).2).blocksRecords =
        rs.reverse ++ ar.blocksRecords := by
  intro rs
  induction rs with
  | nil => intro ar h; simp [Arena.registerMany]
  | cons r rs ih =>
    intro ar h
    have hr := ar.register_cleanup_total ps r hps (h r (List.mem_cons_self r rs))
    rcases hp : ar.register_cleanup ps r with ⟨fst, ar2⟩
    rw [hp] at hr
    simp only at hr
    obtain ⟨h1, h2⟩ := hr
    subst h1
    have hrest := ih ar2 (fun x hx => h x (List.mem_cons_of_mem r hx))
    simp only [Arena.registerMany, hp]
    refine ⟨hrest.1, ?_⟩
    rw [hrest.2, h2]
    simp

theorem Arena.growAlloc_some_aligned (ar : Arena) (ps : PageSource)
    (n a p : ℕ) (ar2 : Arena) (h : ar.growAlloc ps n a = (some p, ar2)) :
    p % a = 0 := by
  simp only [Arena.growAlloc] at h
  split at h
  · simp at h
  · split at h
    · simp only [Prod.mk.injEq, Option.some.injEq] at h
      obtain ⟨hp, _⟩ := h
      subst hp
      simp [Block.bump, align_up_mod]
    · simp at h

theorem Arena.allocate_aligned_some_mod (ar : Arena) (ps : PageSource)
    (n a p : ℕ) (ar2 : Arena)
    (h : ar.allocate_aligned ps n a = (some p, ar2)) : p % a = 0 := by
  simp only [Arena.allocate_aligned] at h
  split at h
  next b rest heq =>
    split at h
    · simp only [Prod.mk.injEq, Option.some.injEq] at h
      obtain ⟨hp, _⟩ := h
      subst hp
      exact align_up_mod _ a
    · split at h
      · simp only [Prod.mk.injEq, Option.some.injEq] at h
        obtain ⟨hp, _⟩ := h
        subst hp
        simp [Block.bump, align_up_mod]
      · exact ar.growAlloc_some_aligned ps n a p ar2 h
  next heq => exact ar.growAlloc_some_aligned ps n a p ar2 h

theorem Arena.growRegister_false (ar : Arena) (ps : PageSource)
    (r : CleanupRecord) (ar2 : Arena)
    (h : ar.growRegister ps r = (false, ar2)) : ar2 = ar := by
  simp only [Arena.growRegister] at h
  split at h
  · simp only [Prod.mk.injEq] at h
    exact h.2.symm
  · split at h
    · simp at h
    · simp only [Prod.mk.injEq] at h
      exact h.2.symm

theorem Arena.register_cleanup_false (ar : Arena) (ps : PageSource)
    (r : CleanupRecord) (ar2 : Arena)
    (h : ar.register_cleanup ps r = (false, ar2)) : ar2 = ar := by
  simp only [Arena.register_cleanup] at h
  split at h
  · simp at h
  · split at h
    next b rest heq =>
      split at h
      · simp at h
      · exact ar.growRegister_false ps r ar2 h
    next heq => exact ar.growRegister_false ps r ar2 h

/-- The C++ type int: no arena tags, trivially destructible, trivial C-like
layout, not a byte buffer, no nested allocator machinery. -/
def intType : CppType :=
  { hasArenaManagedTag := false, hasSkipDestructTag := false,
    triviallyDestructible := true, triviallyConstructibleCopyable := true,
    isByteBuffer := false, hasAllocatorAndValueType := false,
    allocatorIsPmrPolyOfValue := false, valueTriviallyDestructible := false }

/-- A C++ type shaped like struct S with a user-provided constructor, a
defaulted (trivial) destructor and no arena tags: not trivially
constructible/copyable, trivially destructible, not a byte buffer. -/
def userCtorStruct : CppType :=
  { hasArenaManagedTag := false, hasSkipDestructTag := false,
    triviallyDestructible := true, triviallyConstructibleCopyable := false,
    isByteBuffer := false, hasAllocatorAndValueType := false,
    allocatorIsPmrPolyOfValue := false, valueTriviallyDestructible := false }

/-- A type shaped like the README arena_vector example: carries
ArenaManagedCreateOnlyTag, has a non-trivial destructor (it holds a
std::pmr::vector member) and no other special structure. -/
def arenaVectorType : CppType :=
  { hasArenaManagedTag := false, hasSkipDestructTag := true,
    triviallyDestructible := false, triviallyConstructibleCopyable := false,
    isByteBuffer := false, hasAllocatorAndValueType := false,
    allocatorIsPmrPolyOfValue := false, valueTriviallyDestructible := false }

/-- std::pmr::vector of int: allocator_type is polymorphic_allocator of the
value_type int, which is trivially destructible; the vector itself has a
non-trivial destructor and no arena tags. -/
def pmrVectorIntType : CppType :=
  { hasArenaManagedTag := false, hasSkipDestructTag := false,
    triviallyDestructible := false, triviallyConstructibleCopyable := false,
    isByteBuffer := false, hasAllocatorAndValueType := true,
    allocatorIsPmrPolyOfValue := true, valueTriviallyDestructible := true }

/-- The benchmark TestObject: ArenaFullManagedTag with user-provided
constructor and destructor. -/
def testObjectType : CppType :=
  { hasArenaManagedTag := true, hasSkipDestructTag := false,
    triviallyDestructible := false, triviallyConstructibleCopyable := false,
    isByteBuffer := false, hasAllocatorAndValueType := false,
    allocatorIsPmrPolyOfValue := false, valueTriviallyDestructible := false }

/-- A page source that always succeeds, handing out buffers at address
1024. -/
def psOk : PageSource := fun _ => some 1024

/-- A page source that always fails. -/
def psNone : PageSource := fun _ => none

/-- An empty arena with default-like options. -/
def arena0 : Arena :=
  { blocks := [], normal_block_size := 4096, huge_block_size := 65536,
    reset_count := 0, cleanup_count := 0 }

/-- An arena owning one fresh 4096-byte block at address 1024. -/
def arena1 : Arena :=
  { arena0 with blocks := [Block.fresh 1024 4096] }

/-- C1: the facade decides T destructor-skippable iff T carries the
ArenaManagedSkipDestruct_ tag, or is trivially destructible, or is a PMR
container with trivially destructible value_type; and create registers a
destructor thunk exactly when T is not destructor-skippable: a skippable T
leaves the arena's cleanup records unchanged, while a non-skippable T on
which create succeeds adds exactly one cleanup record for the new object. -/
theorem destructor_decision (T : CppType) (ar : Arena) (ps : PageSource)
    (n a d p : ℕ) (ar2 : Arena) (hC : Constructable T = true) :
    (is_destructor_skippable T =
      (T.hasSkipDestructTag || T.triviallyDestructible ||
        is_pmr_trivial_container T)) ∧
    (is_destructor_skippable T = true →
      ((ar.create ps T n a d).2).blocksRecords = ar.blocksRecords) ∧
    (is_destructor_skippable T = false →
      ar.create ps T n a d = (some p, ar2) →
      ar2.blocksRecords = CleanupRecord.mk p d :: ar.blocksRecords) := by
  refine ⟨rfl, ?_, ?_⟩
  · intro hskip
    have hrec := ar.blocksRecords_allocate_aligned ps n a
    simp [Arena.create, hC, hskip, hrec]
  · intro hskip hcr
    simp only [Arena.create, hC, hskip, if_true, Bool.false_eq_true,
      if_false] at hcr
    exact ar.allocWithCleanup_some ps n a d p ar2 hcr

/-- C1 witness: creating a std::pmr::vector of int (destructor-skippable as a
PMR container of trivially destructible elements) registers no cleanup
record. -/
theorem destructor_decision_witness :
    ((arena0.create psOk pmrVectorIntType 24 8 0).2).blocksRecords =
      arena0.blocksRecords :=
  (destructor_decision pmrVectorIntType arena0 psOk 24 8 0 0 arena0
    (by decide)).2.1 (by decide)

/-- C2 counterexample: a type with a user-provided constructor, a trivial
destructor and no tags satisfies none of the three claimed conditions (no
full-managed tag, not trivially constructible/copyable, not a byte buffer)
yet the Constructable gate accepts it. -/
theorem constructability_gate_counterexample :
    Constructable userCtorStruct = true ∧
    userCtorStruct.hasArenaManagedTag = false ∧
    userCtorStruct.triviallyConstructibleCopyable = false ∧
    userCtorStruct.isByteBuffer = false := by decide

/-- C2 amended: the gate accepts T iff T has the full-managed tag or T is
destructor-skippable; every T that has the tag, is trivially
constructible/copyable, or is an untyped byte buffer is accepted (the two
C++ facts that such types are trivially destructible are hypotheses), but
acceptance is strictly wider than those three conditions. -/
theorem constructability_gate (T : CppType)
    (h1 : T.triviallyConstructibleCopyable = true →
      T.triviallyDestructible = true)
    (h2 : T.isByteBuffer = true → T.triviallyDestructible = true) :
    (Constructable T =
      (is_arena_full_managable T || is_destructor_skippable T)) ∧
    ((T.hasArenaManagedTag || T.triviallyConstructibleCopyable ||
        T.isByteBuffer) = true → Constructable T = true) := by
  refine ⟨rfl, ?_⟩
  intro h
  cases htag : T.hasArenaManagedTag <;>
    cases htcc : T.triviallyConstructibleCopyable <;>
      cases hbb : T.isByteBuffer <;>
        simp_all [Constructable, is_arena_full_managable,
          ArenaHelper.is_arena_constructable, is_destructor_skippable,
          ArenaHelper.is_destructor_skippable, destructionSkippableProbe]

/-- C2 witness: the plain C-like type int passes the amended gate. -/
theorem constructability_gate_witness : Constructable intType = true :=
  (constructability_gate intType (by decide) (by decide)).2 (by decide)

/-- C4: a type carrying the skip-destructor marker is accepted by the
constructability gate and is destructor-skippable, and create registers no
destructor for it: the arena's cleanup records are unchanged, so no
destructor is ever invoked for such an object at reset or teardown. -/
theorem skip_tag_subsumes (T : CppType) (ar : Arena) (ps : PageSource)
    (n a d : ℕ) (h : T.hasSkipDestructTag = true) :
    Constructable T = true ∧ DestructorSkippable T = true ∧
    ((ar.create ps T n a d).2).blocksRecords = ar.blocksRecords := by
  have hskip : is_destructor_skippable T = true := by
    simp [is_destructor_skippable, ArenaHelper.is_destructor_skippable,
      destructionSkippableProbe, h]
  have hC : Constructable T = true := by simp [Constructable, hskip]
  refine ⟨hC, hskip, ?_⟩
  have hrec := ar.blocksRecords_allocate_aligned ps n a
  simp [Arena.create, hC, hskip, hrec]

/-- C4 witness: the README arena_vector type (skip tag, non-trivial
destructor) is accepted and create registers no cleanup for it. -/
theorem skip_tag_subsumes_witness :
    Constructable arenaVectorType = true ∧
    DestructorSkippable arenaVectorType = true ∧
    ((arena0.create psOk arenaVectorType 40 8 7).2).blocksRecords =
      arena0.blocksRecords :=
  skip_tag_subsumes arenaVectorType arena0 psOk 40 8 7 rfl

/-- C10: Constructable and NonConstructable are not complementary: for the
plain type int (no arena tags, trivially destructible) both concepts hold,
because Constructable is already satisfied by destructor-skippability alone
while NonConstructable only negates the full-managed tag check. -/
theorem concepts_not_complementary :
    Constructable intType = true ∧ NonConstructable intType = true ∧
    intType.hasArenaManagedTag = false ∧
    intType.hasSkipDestructTag = false := by decide

/-- C3: for every sequence of non-null cleanup registrations r1, ..., rk
performed in that order on one arena (registrations that spill into a
freshly grown block included), every registration succeeds while the page
source provides blocks, and reset or teardown then fires exactly the list
rk, ..., r1 followed by the records already present: strict reverse
registration order, each thunk exactly once. -/
theorem cleanup_reverse_order (ar : Arena) (ps : PageSource)
    (rs : List CleanupRecord) (hps : ∀ s, (ps s).isSome = true)
    (hnz : ∀ r ∈ rs, r.ptr ≠ 0) :
    (ar.registerMany ps rs).1 = true ∧
    (((ar.registerMany ps rs).2).reset).1 =
      rs.reverse ++ ar.blocksRecords := by
  obtain ⟨h1, h2⟩ := Arena.registerMany_total ps hps rs ar hnz
  refine ⟨h1, ?_⟩
  simpa [Arena.reset, Arena.blocksRecords] using h2

/-- C3 witness: registering three records on the empty arena and resetting
fires them in reverse order. -/
theorem cleanup_reverse_order_witness :
    (arena0.registerMany psOk
      [CleanupRecord.mk 1 10, CleanupRecord.mk 2 20,
       CleanupRecord.mk 3 30]).1 = true ∧
    (((arena0.registerMany psOk
      [CleanupRecord.mk 1 10, CleanupRecord.mk 2 20,
       CleanupRecord.mk 3 30]).2).reset).1 =
      [CleanupRecord.mk 3 30, CleanupRecord.mk 2 20,
       CleanupRecord.mk 1 10] := by
  have h := cleanup_reverse_order arena0 psOk
    [CleanupRecord.mk 1 10, CleanupRecord.mk 2 20, CleanupRecord.mk 3 30]
    (fun s => rfl) (by decide)
  simpa [arena0, Arena.blocksRecords, firedList] using h

/-- C5: immediately after reset, space_used is 0; a second reset on the
untouched arena fires no cleanup thunk and changes no observable state apart
from incrementing reset_count. -/
theorem reset_idempotent (ar : Arena) :
    ((ar.reset).2).space_used = 0 ∧
    (((ar.reset).2).reset).1 = [] ∧
    (((ar.reset).2).reset).2 =
      { (ar.reset).2 with reset_count := ((ar.reset).2).reset_count + 1 } := by
  refine ⟨?_, rfl, ?_⟩
  · simp [Arena.reset, Arena.space_used]
  · simp [Arena.reset, firedList]

/-- C6: allocation failure is all-or-nothing: whenever allocate_aligned,
create or register_cleanup fails, the arena comes back exactly as it was (no
new block, no half-constructed object, no orphan cleanup record, so no
construction was attempted), and with a failing page source and no current
block allocate_aligned does fail. -/
theorem allocation_failure_atomic (ar : Arena) (ps : PageSource)
    (T : CppType) (n a nc ac d : ℕ) (r : CleanupRecord) :
    (∀ ar2, ar.allocate_aligned ps n a = (none, ar2) → ar2 = ar) ∧
    (∀ ar2, ar.create ps T nc ac d = (none, ar2) → ar2 = ar) ∧
    (∀ ar2, ar.register_cleanup ps r = (false, ar2) → ar2 = ar) ∧
    ((∀ s, ps s = none) → ar.blocks = [] →
      ar.allocate_aligned ps n a = (none, ar)) := by
  refine ⟨?_, ?_, ?_, ?_⟩
  · intro ar2 h
    exact ar.allocate_aligned_none ps n a ar2 h
  · intro ar2 h
    exact ar.create_none ps T nc ac d ar2 h
  · intro ar2 h
    exact ar.register_cleanup_false ps r ar2 h
  · intro hps hb
    simp [Arena.allocate_aligned, hb, Arena.growAlloc, hps]

/-- C6 witness: with a page source that always fails, allocation on the
empty arena fails and returns the arena unchanged. -/
theorem allocation_failure_atomic_witness :
    arena0.allocate_aligned psNone 8 8 = (none, arena0) :=
  (allocation_failure_atomic arena0 psNone intType 8 8 8 8 0
    (CleanupRecord.mk 1 1)).2.2.2 (fun s => rfl) rfl

/-- C7: every successful allocate_aligned(n, a) with a a power of two
returns an address divisible by a, and align_up n a is the smallest multiple
of a that is greater than or equal to n. -/
theorem allocation_alignment (ar : Arena) (ps : PageSource) (n a p : ℕ)
    (ar2 : Arena) (hpow : is_power_of_two a = true)
    (h : ar.allocate_aligned ps n a = (some p, ar2)) :
    p % a = 0 ∧ align_up n a % a = 0 ∧ n ≤ align_up n a ∧
    ∀ m, m % a = 0 → n ≤ m → align_up n a ≤ m := by
  have ha := is_power_of_two_pos a hpow
  exact ⟨ar.allocate_aligned_some_mod ps n a p ar2 h, align_up_mod n a,
    le_align_up n a ha, fun m hm hnm => align_up_le_of_le n a m ha hm hnm⟩

/-- C7 witness: the first 8-byte allocation at alignment 8 from the empty
arena lands at address 1040, which is divisible by 8. -/
theorem allocation_alignment_witness :
    is_power_of_two 8 = true ∧ 1040 % 8 = 0 :=
  ⟨by decide,
   (allocation_alignment arena0 psOk 8 8 1040
      (arena0.allocate_aligned psOk 8 8).2 (by decide) (by decide)).1⟩

/-- C8: a zero-byte allocation at power-of-two alignment from an arena with
a current block returns a stable non-null aligned address inside the current
block, does not advance pos and leaves all arena state unchanged. -/
theorem allocate_zero_stable (ar : Arena) (ps : PageSource) (a : ℕ)
    (b : Block) (rest : List Block) (hb : ar.blocks = b :: rest)
    (hpow : is_power_of_two a = true) (hbase : 0 < b.base)
    (hfit : align_up (b.base + b.pos) a ≤ b.base + b.limit) :
    ar.allocate_aligned ps 0 a = (some (align_up (b.base + b.pos) a), ar) ∧
    0 < align_up (b.base + b.pos) a ∧
    b.base ≤ align_up (b.base + b.pos) a ∧
    align_up (b.base + b.pos) a ≤ b.base + b.limit := by
  have ha := is_power_of_two_pos a hpow
  have hle : b.base + b.pos ≤ align_up (b.base + b.pos) a :=
    le_align_up _ a ha
  refine ⟨?_, by omega, by omega, hfit⟩
  simp [Arena.allocate_aligned, hb]

/-- C8 witness: a zero-byte allocation at alignment 8 from an arena with one
fresh block returns address 1040 and leaves the arena unchanged. -/
theorem allocate_zero_stable_witness :
    arena1.allocate_aligned psOk 0 8 = (some 1040, arena1) := by
  have h := (allocate_zero_stable arena1 psOk 8 (Block.fresh 1024 4096) []
    rfl (by decide) (by decide) (by decide)).1
  rw [h]
  decide

/-- C9: the allocation-resource adapter's deallocate(p, n, a) is a no-op: it
returns the arena with every component (blocks, hence all bump positions and
limits, space_used, reset_count, cleanup_count) unchanged, so previously
returned allocations remain accessible. -/
theorem deallocate_noop (ar : Arena) (p n a : ℕ) :
    ar.deallocate p n a = ar ∧
    (ar.deallocate p n a).blocks = ar.blocks ∧
    (ar.deallocate p n a).space_used = ar.space_used ∧
    (ar.deallocate p n a).reset_count = ar.reset_count ∧
    (ar.deallocate p n a).cleanup_count = ar.cleanup_count :=
  ⟨rfl, rfl, rfl, rfl, rfl⟩

end arena
